import Mathlib

/-!
Shallow embedding of the GeniusHub client library (`geniushubclient/__init__.py`):
the v3-to-v1 schema translator (`_convert_zone`, `_convert_device`), the device
extraction helpers, the `Hub.update()` reconciliation pass over the Zone/Device
object graph, `Zone.set_mode`, and the `GeniusHubClient` constructor's protocol
selection.  Python dicts are embedded as insertion-ordered association lists,
JSON values as the inductive `V1Val`, machine floats occurring in zone records
as rationals (the only operations performed on them are copying and comparison
with zero), and Python object identity as explicit allocation of numeric object
ids from a counter.
-/

/-- A JSON value as produced by the v3-to-v1 translation layer. -/
inductive V1Val where
  | null : V1Val
  | num (q : Rat) : V1Val
  | str (s : String) : V1Val
  | bool (b : Bool) : V1Val
  | obj (fields : List (String × V1Val)) : V1Val
  | arr (elems : List V1Val) : V1Val

/-- Modelled from the spec: the numeric zone-type codes come from `const.py`
(`zone_types`), which is not among the provided sources.  The spec names the
zone types ControlSP, TPI, OnOffTimer, Manager; the codes are distinct
integers. -/
def zone_types.Manager : Int := 1

/-- Modelled from the spec: `zone_types.OnOffTimer` numeric code. -/
def zone_types.OnOffTimer : Int := 2

/-- Modelled from the spec: `zone_types.ControlSP` numeric code. -/
def zone_types.ControlSP : Int := 3

/-- Modelled from the spec: `zone_types.TPI` numeric code. -/
def zone_types.TPI : Int := 4

/-- Modelled from the spec: `zone_modes` numeric codes from `const.py` (absent
from the sources).  The codes for off/timer/footprint are recorded in the
comments of `GeniusZone.set_mode` and `set_override` in the source:
off = 1, timer = 2, footprint = 4, override = 16. -/
def zone_modes.Off : Int := 1

/-- Modelled from the spec: `zone_modes.Timer` numeric code. -/
def zone_modes.Timer : Int := 2

/-- Modelled from the spec: `zone_modes.Footprint` numeric code. -/
def zone_modes.Footprint : Int := 4

/-- Modelled from the spec: `zone_modes.Override` numeric code. -/
def zone_modes.Override : Int := 16

/-- Modelled from the spec: `kit_types.PIR` equipment bitmask bit from
`const.py` (absent from the sources); the spec only requires it to be a
single bit of the expected-kit bitmask. -/
def kit_types.PIR : Nat := 4

/-- Modelled from the spec: the `ITYPE_TO_TYPE` enum-to-text table from
`const.py` (absent from the sources), as a finite lookup table; per the spec
(Scenario 1) the text for `ControlSP` is "ControlSP".  A Python dict indexing
miss raises `KeyError`, embedded here as a `none` result. -/
def ITYPE_TO_TYPE (i : Int) : Option String :=
  if i = zone_types.Manager then some "Manager"
  else if i = zone_types.OnOffTimer then some "OnOffTimer"
  else if i = zone_types.ControlSP then some "ControlSP"
  else if i = zone_types.TPI then some "TPI"
  else none

/-- Modelled from the spec: the `IMODE_TO_MODE` enum-to-text table from
`const.py` (absent from the sources); per the spec (Scenario 1) mode code 1
maps to "off", and the valid mode names are off/timer/footprint/override. -/
def IMODE_TO_MODE (i : Int) : Option String :=
  if i = zone_modes.Off then some "off"
  else if i = zone_modes.Timer then some "timer"
  else if i = zone_modes.Footprint then some "footprint"
  else if i = zone_modes.Override then some "override"
  else none

/-- The `objReactive` sub-record of a v3 zone's `objFootprint`. -/
structure ZoneReactive where
  bTriggerOn : Bool
deriving DecidableEq

/-- The `objFootprint` sub-record of a v3 zone record. -/
structure ZoneFootprint where
  objReactive : ZoneReactive
  bIsNight : Bool
deriving DecidableEq

/-- A well-formed v3 zone record: the fields of the v3 JSON zone dict that
`_convert_zone` reads. -/
structure ZoneV3 where
  iID : Int
  iType : Int
  strName : String
  fPV : Rat
  fSP : Rat
  iMode : Int
  iFlagExpectedKit : Nat
  iBoostTimeRemaining : Int
  fBoostSP : Rat
  objFootprint : ZoneFootprint
deriving DecidableEq

/-- A `KeyError` raised by `_convert_zone` when a numeric enum code is not a
key of the corresponding enum-to-text table. -/
inductive ConvError where
  | keyErrorType (code : Int) : ConvError
  | keyErrorMode (code : Int) : ConvError
deriving DecidableEq

/-- Embedding of `_convert_zone` (source lines 25-66): convert a v3 zone dict
to the v1 schema.  The result dict is modelled as an insertion-ordered
association list; the two enum lookups raise `KeyError` (here: `Except.error`)
on an unknown code, the type lookup (line 29) before the mode lookup
(line 39), exactly as the dict indexing in the source does. -/
def _convert_zone (input : ZoneV3) : Except ConvError (List (String × V1Val)) :=
  match ITYPE_TO_TYPE input.iType with
  | none => Except.error (ConvError.keyErrorType input.iType)
  | some ty =>
    match IMODE_TO_MODE input.iMode with
    | none => Except.error (ConvError.keyErrorMode input.iMode)
    | some mo =>
      Except.ok
        ([("id", V1Val.num (input.iID : Rat)),
          ("type", V1Val.str ty),
          ("name", V1Val.str input.strName)]
         ++ (if input.iType = zone_types.ControlSP ∨ input.iType = zone_types.TPI then
              [("temperature", V1Val.num input.fPV), ("setpoint", V1Val.num input.fSP)]
             else [])
         ++ (if input.iType = zone_types.OnOffTimer then
              [("setpoint", V1Val.bool (decide (input.fSP ≠ 0)))]
             else [])
         ++ [("mode", V1Val.str mo)]
         ++ (if Nat.land input.iFlagExpectedKit kit_types.PIR ≠ 0 then
              [("occupied", V1Val.bool ((input.iMode == zone_modes.Footprint)
                  && input.objFootprint.objReactive.bTriggerOn
                  && !input.objFootprint.bIsNight))]
             else [])
         ++ (if input.iType = zone_types.OnOffTimer ∨ input.iType = zone_types.ControlSP
                ∨ input.iType = zone_types.TPI then
              [("override", V1Val.obj
                  [("duration", V1Val.num (input.iBoostTimeRemaining : Rat)),
                   ("setpoint", if input.iType = zone_types.OnOffTimer
                      then V1Val.bool (decide (input.fBoostSP ≠ 0))
                      else V1Val.num input.fBoostSP)]),
               ("schedule", V1Val.obj [])]
             else []))

/-- Lookup in a Python dict embedded as an insertion-ordered association
list: the binding of the first matching key, if any. -/
def dlookup {α β : Type} [DecidableEq α] : List (α × β) → α → Option β
  | [], _ => none
  | p :: rest, k => if k = p.1 then some p.2 else dlookup rest k

/-- Assignment `d[k] = v` on a Python dict embedded as an insertion-ordered
association list: overwrite in place if the key is present, else append. -/
def dinsert {α β : Type} [DecidableEq α] (l : List (α × β)) (k : α) (v : β) :
    List (α × β) :=
  if (dlookup l k).isSome then
    l.map (fun p => if p.1 = k then (k, v) else p)
  else l ++ [(k, v)]

/-- The concrete v3 zone record of Scenario 1 of the spec. -/
def scenario1Zone : ZoneV3 :=
  { iID := 1, iType := zone_types.ControlSP, strName := "Lounge",
    fPV := 21, fSP := 20, iMode := 1, iFlagExpectedKit := 0,
    iBoostTimeRemaining := 0, fBoostSP := 0,
    objFootprint := { objReactive := { bTriggerOn := false }, bIsNight := false } }

/-- The v1 zone dict that Scenario 1 of the spec lists as expected output. -/
def scenario1V1 : List (String × V1Val) :=
  [("id", V1Val.num 1),
   ("type", V1Val.str "ControlSP"),
   ("name", V1Val.str "Lounge"),
   ("temperature", V1Val.num 21),
   ("setpoint", V1Val.num 20),
   ("mode", V1Val.str "off"),
   ("override", V1Val.obj [("duration", V1Val.num 0), ("setpoint", V1Val.num 0)]),
   ("schedule", V1Val.obj [])]

/-- The concrete v3 zone record of Scenario 2 of the spec: as Scenario 1 but
with the PIR bit set in `iFlagExpectedKit`, `iMode` = Footprint,
`objFootprint.objReactive.bTriggerOn` true and `objFootprint.bIsNight`
false. -/
def scenario2Zone : ZoneV3 :=
  { iID := 1, iType := zone_types.ControlSP, strName := "Lounge",
    fPV := 21, fSP := 20, iMode := zone_modes.Footprint,
    iFlagExpectedKit := kit_types.PIR,
    iBoostTimeRemaining := 0, fBoostSP := 0,
    objFootprint := { objReactive := { bTriggerOn := true }, bIsNight := false } }

/-- The `childNodes._cfg.childValues` configuration sub-tree of a v3 device
record, when non-empty: the `name.val` and `sku.val` entries read by
`_convert_device`. -/
structure DeviceCfg where
  name : String
  sku : String
deriving DecidableEq

/-- A v3 device/node record, as read by `_convert_device` and the two device
extraction helpers: the node address, the configuration sub-tree
(`none` embeds an empty — falsy — `childNodes._cfg.childValues` dict), and
the `childValues.location.val` string (the empty string is falsy in the
source's `if tmp:` test). -/
structure DeviceV3 where
  addr : String
  cfg : Option DeviceCfg
  location : String
deriving DecidableEq

/-- Embedding of `_convert_device` (source lines 69-90): convert a v3 device
record to the v1 schema. -/
def _convert_device (input : DeviceV3) : List (String × V1Val) :=
  [("id", V1Val.str input.addr)]
  ++ (match input.cfg with
      | some node => [("type", V1Val.str node.name), ("sku", V1Val.str node.sku)]
      | none => [("type", V1Val.null)])
  ++ [("assignedZones", V1Val.arr
        [V1Val.obj [("name", if input.location = "" then V1Val.null
                             else V1Val.str input.location)]])]
  ++ [("state", V1Val.obj [])]

/-- A zone item of the v3 `/zones` payload as read by
`_extract_devices_from_zones`: it optionally carries a `nodes` list
(`none` embeds absence of the `nodes` key). -/
structure ZoneNodes where
  nodes : Option (List DeviceV3)
deriving DecidableEq

/-- Embedding of `_extract_devices_from_zones` (source lines 113-123): for
each zone carrying a `nodes` list, yield every node whose address is not in
the literal exclusion list `["1", "WeatherData"]`, in payload order. -/
def _extract_devices_from_zones (input : List ZoneNodes) : List DeviceV3 :=
  ((input.filterMap (fun zone => zone.nodes)).flatten).filter
    (fun node => !(node.addr == "1") && !(node.addr == "WeatherData"))

/-- An inner container of the v3 `/data_manager` tree: a mapping from child
keys to device records. -/
structure DMContainer where
  childNodes : List (String × DeviceV3)
deriving DecidableEq

/-- The v3 `/data_manager` tree as read by
`_extract_devices_from_data_manager`: a mapping from container keys to
containers of device records. -/
structure DataManager where
  childNodes : List (String × DMContainer)
deriving DecidableEq

/-- Embedding of `_extract_devices_from_data_manager` (source lines 99-110):
walk the two-level `childNodes` tree, skipping the container whose key is
`"WeatherData"` and every device whose `addr` is `"1"`, and convert each
remaining device record with `_convert_device`, in tree order.  Note the
outer filter tests the container key, not the device address. -/
def _extract_devices_from_data_manager (input : DataManager) :
    List (List (String × V1Val)) :=
  (input.childNodes.filter (fun p => !(p.1 == "WeatherData"))).flatMap
    (fun p => (p.2.childNodes.filter (fun q => !(q.2.addr == "1"))).map
      (fun q => _convert_device q.2))

/-- One HTTP request as issued by `GeniusObject._request`: the method name,
the url path appended to the client's base url, and the JSON body passed as
the `data` argument (`none` when no body is given). -/
structure Request where
  method : String
  url : String
  body : Option V1Val

/-- Embedding of `GeniusZone.set_mode` (source lines 537-555) as its
observable request trace: under the v1 protocol one PUT to
`zones/(id)/mode` with the mode string as the body, and otherwise one PATCH
to `zone/(id)` with body `iMode = mode` — the mode string itself, taken
verbatim from the argument; the source performs no validation of the mode
argument and no mapping of the mode name to a numeric code. -/
def set_mode (api_v1 : Bool) (zone_id : String) (mode : String) : List Request :=
  if api_v1 then
    [{ method := "PUT", url := "zones/" ++ zone_id ++ "/mode",
       body := some (V1Val.str mode) }]
  else
    [{ method := "PATCH", url := "zone/" ++ zone_id,
       body := some (V1Val.obj [("iMode", V1Val.str mode)]) }]

/-- The configuration fields set by `GeniusHubClient.__init__`: protocol
flag `_api_v1`, basic-auth credentials `_auth` as a login/password pair
(`none` embeds Python `None`), `_url_base` and `_headers`. -/
structure ClientConfig where
  api_v1 : Bool
  auth : Option (String × String)
  url_base : String
  headers : List (String × String)
deriving DecidableEq

/-- The `TypeError` raised by `username + password` when exactly one of the
two credentials is `None`. -/
inductive InitError where
  | typeError : InitError
deriving DecidableEq

/-- Python truthiness of an optional string argument: `None` and the empty
string are falsy. -/
def truthyStr : Option String → Bool
  | none => false
  | some s => !(s == "")

/-- Embedding of `GeniusHubClient.__init__` (source lines 140-156):
`_api_v1 = not (username or password)` under Python truthiness; the v1
branch configures bearer-token headers from `hub_id` and the cloud base
url; the v3 branch hashes `username + password` (the hex SHA-256 digest is
the external `hashlib` collaborator, passed in as `sha256hex`), which
raises `TypeError` when either credential is `None`, and otherwise
configures basic auth, the local base url on port 1223 and a
`Connection: close` header. -/
def clientInit (sha256hex : String → String) (hub_id : String)
    (username password : Option String) : Except InitError ClientConfig :=
  if !(truthyStr username || truthyStr password) then
    Except.ok
      { api_v1 := true, auth := none,
        url_base := "https://my.geniushub.co.uk/v1/",
        headers := [("authorization", "Bearer " ++ hub_id)] }
  else
    match username, password with
    | some u, some p =>
      Except.ok
        { api_v1 := false, auth := some (u, sha256hex (u ++ p)),
          url_base := "http://" ++ hub_id ++ ":1223/v3/",
          headers := [("Connection", "close")] }
    | _, _ => Except.error InitError.typeError

/-- The fields of a v1-shape zone dict read by `GeniusHub.update`'s
`_populate_zone`: `zone_dict` id and (via the splatted attributes of the
created `GeniusZone` object) name. -/
structure ZoneRec where
  id : Int
  name : String
deriving DecidableEq

/-- The fields of a v1-shape device dict read by `GeniusHub.update`'s
`_populate_device`: `device_dict` id and `assignedZones[0].name`
(`none` embeds Python `None`). -/
structure DeviceRec where
  id : String
  assignedZoneName : Option String
deriving DecidableEq

/-- A `GeniusZone` object of the Hub's object graph.  Python object identity
is embedded as the allocation number `oid`; `data` holds the zone dict
splatted into the object on construction; `device_objs` and `device_by_id`
are the zone's own device table (lists of device `oid`s). -/
structure ZoneObj where
  oid : Nat
  data : ZoneRec
  device_objs : List Nat
  device_by_id : List (String × Nat)
deriving DecidableEq

/-- A `GeniusDevice` object of the Hub's object graph; `oid` embeds Python
object identity and `data` the device dict splatted into the object. -/
structure DeviceObj where
  oid : Nat
  data : DeviceRec
deriving DecidableEq

/-- The mutable object-graph state owned by a `GeniusHub`: the allocation
counter for fresh object identities, the hub's `zone_objs` /
`zone_by_id` / `zone_by_name` tables (holding object identities), the heap
of `GeniusZone` objects (`zstore`, keyed by `oid` — a zone's own device
table lives in its heap entry because it is mutated through shared
references), the hub's `device_objs` / `device_by_id` tables, and the heap
of `GeniusDevice` objects. -/
structure HubState where
  nextOid : Nat
  zone_objs : List Nat
  zone_by_id : List (Int × Nat)
  zone_by_name : List (String × Nat)
  zstore : List ZoneObj
  device_objs : List Nat
  device_by_id : List (String × Nat)
  dstore : List DeviceObj
deriving DecidableEq

/-- The state of a freshly constructed `GeniusHub`: empty tables. -/
def initHubState : HubState :=
  { nextOid := 0, zone_objs := [], zone_by_id := [], zone_by_name := [],
    zstore := [], device_objs := [], device_by_id := [], dstore := [] }

/-- Embedding of `_populate_zone` (source lines 251-264): look the zone id
up in `zone_by_id`; on a hit nothing happens (the found branch only logs);
on a miss a fresh `GeniusZone` is constructed and appended to `zone_objs`
and indexed under its id and its name. -/
def _populate_zone (zone_dict : ZoneRec) (s : HubState) : HubState :=
  match dlookup s.zone_by_id zone_dict.id with
  | some _ => s
  | none =>
    let z : ZoneObj := { oid := s.nextOid, data := zone_dict,
                         device_objs := [], device_by_id := [] }
    { s with
      nextOid := s.nextOid + 1
      zstore := s.zstore ++ [z]
      zone_objs := s.zone_objs ++ [z.oid]
      zone_by_id := dinsert s.zone_by_id z.data.id z.oid
      zone_by_name := dinsert s.zone_by_name z.data.name z.oid }

/-- The errors `_populate_device` can raise: the `KeyError` from
`hub.zone_by_name[name]` when the assigned-zone name is not indexed, and a
marker for a dangling object reference — impossible in the Python source,
where references cannot dangle, and unreachable from states this model
constructs. -/
inductive UpdateError where
  | keyError (name : String) : UpdateError
  | danglingRef (oid : Nat) : UpdateError
deriving DecidableEq

/-- Python truthiness of the `name = device_dict['assignedZones'][0]['name']`
value in the source's `if name else None`: `None` and the empty string are
falsy. -/
def truthyName (d : DeviceRec) : Option String :=
  match d.assignedZoneName with
  | none => none
  | some n => if n = "" then none else some n

/-- Dereference a zone object identity in the heap. -/
def zfind (s : HubState) (oid : Nat) : Option ZoneObj :=
  s.zstore.find? (fun z => z.oid == oid)

/-- The try/except block of `_populate_device` over `hub.device_by_id`
(source lines 277-284): return the already-known device's identity, or
construct a fresh `GeniusDevice`, append it to `device_objs` and index it
under its id. -/
def deviceEnsure (device_dict : DeviceRec) (s : HubState) : Nat × HubState :=
  match dlookup s.device_by_id device_dict.id with
  | some o => (o, s)
  | none =>
    let dev : DeviceObj := { oid := s.nextOid, data := device_dict }
    (dev.oid,
     { s with
       nextOid := s.nextOid + 1
       dstore := s.dstore ++ [dev]
       device_objs := s.device_objs ++ [dev.oid]
       device_by_id := dinsert s.device_by_id dev.data.id dev.oid })

/-- The mutation `zone.device_objs.append(device)` followed by
`zone.device_by_id[device.id] = device` applied to one zone object. -/
def linkZoneObj (w : ZoneObj) (idx : String) (devOid : Nat) : ZoneObj :=
  { w with device_objs := w.device_objs ++ [devOid],
           device_by_id := dinsert w.device_by_id idx devOid }

/-- The `if zone:` block of `_populate_device` (source lines 289-297): link
the device into the zone's own device table unless already present there. -/
def deviceLink (zoneOid : Option Nat) (idx : String) (devOid : Nat)
    (s : HubState) : Except UpdateError HubState :=
  match zoneOid with
  | none => Except.ok s
  | some zoid =>
    match zfind s zoid with
    | none => Except.error (UpdateError.danglingRef zoid)
    | some z =>
      match dlookup z.device_by_id idx with
      | some _ => Except.ok s
      | none =>
        Except.ok
          { s with zstore := s.zstore.map (fun w =>
              if w.oid == zoid then linkZoneObj w idx devOid else w) }

/-- Embedding of `_populate_device` as invoked from `GeniusHub.update`
(source lines 266-297, Hub branch): resolve the truthy assigned-zone name
through `hub.zone_by_name` — a missing key raises `KeyError` — then ensure
the device exists in the hub's table and link it into the resolved zone's
table. -/
def _populate_device (device_dict : DeviceRec) (s : HubState) :
    Except UpdateError HubState :=
  match truthyName device_dict with
  | none =>
    deviceLink none device_dict.id
      (deviceEnsure device_dict s).1 (deviceEnsure device_dict s).2
  | some n =>
    match dlookup s.zone_by_name n with
    | some zoid =>
      deviceLink (some zoid) device_dict.id
        (deviceEnsure device_dict s).1 (deviceEnsure device_dict s).2
    | none => Except.error (UpdateError.keyError n)

/-- The zone loop of `GeniusHub.update` (source lines 307-308): populate
each fetched zone dict in order. -/
def zfold : List ZoneRec → HubState → HubState
  | [], s => s
  | z :: zs, s => zfold zs (_populate_zone z s)

/-- The device loop of `GeniusHub.update` (source lines 309-310): populate
each fetched device dict in order; a raised `KeyError` aborts the loop and
propagates. -/
def dfold : List DeviceRec → HubState → Except UpdateError HubState
  | [], s => Except.ok s
  | d :: ds, s =>
    match _populate_device d s with
    | Except.ok s1 => dfold ds s1
    | Except.error e => Except.error e

/-- Embedding of the reconciliation pass of `GeniusHub.update` (source
lines 247-310), applied to the zone dicts and device dicts obtained from
the (identical-per-claim) upstream responses: all zones are populated
first, then all devices. -/
def hub_update (zones : List ZoneRec) (devices : List DeviceRec)
    (s : HubState) : Except UpdateError HubState :=
  dfold devices (zfold zones s)

/-- A zone id is present in the hub's `zone_by_id` table. -/
def zoneKnown (s : HubState) (i : Int) : Prop :=
  (dlookup s.zone_by_id i).isSome

/-- A device record has been fully reconciled into a hub state: its id is in
the hub's `device_by_id` table, and — when its assigned-zone name is truthy —
that name resolves through `zone_by_name` to a zone object whose own device
table also carries the device id. -/
def DevDone (d : DeviceRec) (s : HubState) : Prop :=
  (dlookup s.device_by_id d.id).isSome ∧
  ∀ n, truthyName d = some n →
    ∃ zoid z, dlookup s.zone_by_name n = some zoid ∧ zfind s zoid = some z ∧
      (dlookup z.device_by_id d.id).isSome

/-- The field-presence contract of `_convert_zone` claimed by the spec:
temperature and setpoint exactly for ControlSP/TPI, boolean setpoint for
OnOffTimer, override block and empty schedule placeholder exactly for
OnOffTimer/ControlSP/TPI. -/
def ZoneFieldSpec (z : ZoneV3) : Prop :=
  ∃ out, _convert_zone z = Except.ok out ∧
    dlookup out "temperature" =
      (if z.iType = zone_types.ControlSP ∨ z.iType = zone_types.TPI
       then some (V1Val.num z.fPV) else none) ∧
    dlookup out "setpoint" =
      (if z.iType = zone_types.ControlSP ∨ z.iType = zone_types.TPI
       then some (V1Val.num z.fSP)
       else if z.iType = zone_types.OnOffTimer
       then some (V1Val.bool (decide (z.fSP ≠ 0))) else none) ∧
    dlookup out "override" =
      (if z.iType = zone_types.OnOffTimer ∨ z.iType = zone_types.ControlSP
          ∨ z.iType = zone_types.TPI
       then some (V1Val.obj
         [("duration", V1Val.num (z.iBoostTimeRemaining : Rat)),
          ("setpoint", if z.iType = zone_types.OnOffTimer
             then V1Val.bool (decide (z.fBoostSP ≠ 0)) else V1Val.num z.fBoostSP)])
       else none) ∧
    dlookup out "schedule" =
      (if z.iType = zone_types.OnOffTimer ∨ z.iType = zone_types.ControlSP
          ∨ z.iType = zone_types.TPI
       then some (V1Val.obj []) else none)

/-- The occupancy contract of `_convert_zone` claimed by the spec: an
`occupied` key exactly when the expected-kit bitmask has the PIR bit set,
whose boolean value is true exactly when the mode is Footprint, the
footprint reactive trigger is on and the zone is not in footprint night
mode. -/
def OccupiedSpec (z : ZoneV3) : Prop :=
  ∃ out, _convert_zone z = Except.ok out ∧
    (Nat.land z.iFlagExpectedKit kit_types.PIR ≠ 0 →
      dlookup out "occupied" = some (V1Val.bool
        ((z.iMode == zone_modes.Footprint)
          && z.objFootprint.objReactive.bTriggerOn
          && !z.objFootprint.bIsNight))) ∧
    (Nat.land z.iFlagExpectedKit kit_types.PIR = 0 →
      dlookup out "occupied" = none) ∧
    (((z.iMode == zone_modes.Footprint)
        && z.objFootprint.objReactive.bTriggerOn
        && !z.objFootprint.bIsNight) = true ↔
      (z.iMode = zone_modes.Footprint ∧
        z.objFootprint.objReactive.bTriggerOn = true ∧
        z.objFootprint.bIsNight = false))

/-- The v1 zone dict `_convert_zone` produces for the Scenario 2 record:
as Scenario 1 but mode "footprint" and an `occupied: true` entry. -/
def scenario2V1 : List (String × V1Val) :=
  [("id", V1Val.num 1),
   ("type", V1Val.str "ControlSP"),
   ("name", V1Val.str "Lounge"),
   ("temperature", V1Val.num 21),
   ("setpoint", V1Val.num 20),
   ("mode", V1Val.str "footprint"),
   ("occupied", V1Val.bool true),
   ("override", V1Val.obj [("duration", V1Val.num 0), ("setpoint", V1Val.num 0)]),
   ("schedule", V1Val.obj [])]

/-- A v3 zone record with an unknown type code (99), for exercising the
enum-lookup failure path. -/
def zone99 : ZoneV3 :=
  { scenario1Zone with iType := 99 }

/-- The excluded pseudo-device node with address "1" (Scenario 3). -/
def node1 : DeviceV3 := { addr := "1", cfg := none, location := "" }

/-- The excluded weather pseudo-device node (Scenario 3). -/
def nodeWD : DeviceV3 := { addr := "WeatherData", cfg := none, location := "" }

/-- The ordinary device node with address "5" (Scenario 3). -/
def node5 : DeviceV3 :=
  { addr := "5", cfg := some { name := "Radiator Valve", sku := "DA-WRV-B" },
    location := "Kitchen" }

/-- The Scenario 3 zones payload: one zone carrying nodes "1", "WeatherData"
and "5". -/
def scenario3Zones : List ZoneNodes := [{ nodes := some [node1, nodeWD, node5] }]

/-- A data-manager tree with one ordinary container holding `node5`. -/
def dmGood : DataManager :=
  { childNodes := [("Other", { childNodes := [("5", node5)] })] }

/-- The v1 device dict for `node5`. -/
def dmOut5 : List (String × V1Val) := _convert_device node5

/-- A data-manager tree in which a device whose address is "WeatherData"
sits inside a container whose key is not "WeatherData". -/
def dmBad : DataManager :=
  { childNodes := [("Other", { childNodes := [("WeatherData", nodeWD)] })] }

/-- The v1 device dict for `nodeWD`. -/
def dmOutWD : List (String × V1Val) := _convert_device nodeWD

/-- The zone dicts of the two-call witness run for the reconciliation
claims. -/
def c5Zones : List ZoneRec := [{ id := 1, name := "Kitchen" }]

/-- The device dicts of the two-call witness run. -/
def c5Devices : List DeviceRec := [{ id := "7", assignedZoneName := some "Kitchen" }]

/-- The hub state reached by one `hub_update` of `c5Zones` and `c5Devices`
from the fresh state: zone object 0 and device object 1, linked. -/
def c5State : HubState :=
  { nextOid := 2, zone_objs := [0], zone_by_id := [(1, 0)],
    zone_by_name := [("Kitchen", 0)],
    zstore := [{ oid := 0, data := { id := 1, name := "Kitchen" },
                 device_objs := [1], device_by_id := [("7", 1)] }],
    device_objs := [1], device_by_id := [("7", 1)],
    dstore := [{ oid := 1, data := { id := "7", assignedZoneName := some "Kitchen" } }] }

/-- The hub state after populating the single zone id 1 named "Old" into the
fresh state. -/
def c6State : HubState :=
  { nextOid := 1, zone_objs := [0], zone_by_id := [(1, 0)],
    zone_by_name := [("Old", 0)],
    zstore := [{ oid := 0, data := { id := 1, name := "Old" },
                 device_objs := [], device_by_id := [] }],
    device_objs := [], device_by_id := [], dstore := [] }

theorem dlookup_append_some {α β : Type} [DecidableEq α] {a : List (α × β)}
    (b : List (α × β)) {k : α} {v : β} (h : dlookup a k = some v) :
    dlookup (a ++ b) k = some v := by
  induction a with
  | nil => simp [dlookup] at h
  | cons p rest ih =>
    rw [List.cons_append]
    simp only [dlookup] at h ⊢
    by_cases hk : k = p.1
    · rw [if_pos hk] at h ⊢; exact h
    · rw [if_neg hk] at h ⊢; exact ih h

theorem dlookup_append_none {α β : Type} [DecidableEq α] {a : List (α × β)}
    (b : List (α × β)) {k : α} (h : dlookup a k = none) :
    dlookup (a ++ b) k = dlookup b k := by
  induction a with
  | nil => simp
  | cons p rest ih =>
    rw [List.cons_append]
    simp only [dlookup] at h ⊢
    by_cases hk : k = p.1
    · rw [if_pos hk] at h; exact absurd h (by simp)
    · rw [if_neg hk] at h ⊢; exact ih h

theorem dlookup_isSome_append {α β : Type} [DecidableEq α] {a : List (α × β)}
    (b : List (α × β)) {k : α} (h : (dlookup a k).isSome) :
    (dlookup (a ++ b) k).isSome := by
  obtain ⟨v, hv⟩ := Option.isSome_iff_exists.mp h
  rw [dlookup_append_some b hv]
  rfl

theorem dinsert_of_none {α β : Type} [DecidableEq α] {l : List (α × β)} {k : α}
    (v : β) (h : dlookup l k = none) : dinsert l k v = l ++ [(k, v)] := by
  simp [dinsert, h]

theorem dlookup_dinsert_none_some {α β : Type} [DecidableEq α] {l : List (α × β)}
    {k k1 : α} {v : β} (v1 : β) (hnew : dlookup l k1 = none)
    (h : dlookup l k = some v) : dlookup (dinsert l k1 v1) k = some v := by
  rw [dinsert_of_none v1 hnew]
  exact dlookup_append_some _ h

theorem dlookup_dinsert_none_self {α β : Type} [DecidableEq α] {l : List (α × β)}
    {k : α} (v : β) (hnew : dlookup l k = none) :
    dlookup (dinsert l k v) k = some v := by
  rw [dinsert_of_none v hnew, dlookup_append_none _ hnew]
  simp [dlookup]

theorem dlookup_dinsert_none_isSome {α β : Type} [DecidableEq α]
    {l : List (α × β)} {k k1 : α} (v1 : β) (hnew : dlookup l k1 = none)
    (h : (dlookup l k).isSome) : (dlookup (dinsert l k1 v1) k).isSome := by
  obtain ⟨v, hv⟩ := Option.isSome_iff_exists.mp h
  rw [dlookup_dinsert_none_some v1 hnew hv]
  rfl

theorem populateZone_known_self (z : ZoneRec) (s : HubState) :
    zoneKnown (_populate_zone z s) z.id := by
  unfold zoneKnown _populate_zone
  cases h : dlookup s.zone_by_id z.id with
  | some v => simp [h]
  | none => simp [dlookup_dinsert_none_self s.nextOid h]

theorem populateZone_known_mono (z : ZoneRec) {s : HubState} {i : Int}
    (h : zoneKnown s i) : zoneKnown (_populate_zone z s) i := by
  unfold zoneKnown _populate_zone
  cases hz : dlookup s.zone_by_id z.id with
  | some v => exact h
  | none => exact dlookup_dinsert_none_isSome s.nextOid hz h

theorem populateZone_noop (z : ZoneRec) {s : HubState}
    (h : zoneKnown s z.id) : _populate_zone z s = s := by
  unfold _populate_zone
  cases hz : dlookup s.zone_by_id z.id with
  | some v => rfl
  | none =>
    exfalso
    unfold zoneKnown at h
    rw [hz] at h
    simp at h

theorem zfold_known_mono (zs : List ZoneRec) {s : HubState} {i : Int}
    (h : zoneKnown s i) : zoneKnown (zfold zs s) i := by
  induction zs generalizing s with
  | nil => exact h
  | cons z rest ih => exact ih (populateZone_known_mono z h)

theorem zfold_known_of_mem {zs : List ZoneRec} (s : HubState) {z : ZoneRec}
    (h : z ∈ zs) : zoneKnown (zfold zs s) z.id := by
  induction zs generalizing s with
  | nil => cases h
  | cons z0 rest ih =>
    cases h with
    | head => exact zfold_known_mono rest (populateZone_known_self z s)
    | tail _ hm => exact ih (_populate_zone z0 s) hm

theorem zfold_noop {zs : List ZoneRec} {s : HubState}
    (h : ∀ z ∈ zs, zoneKnown s z.id) : zfold zs s = s := by
  induction zs with
  | nil => rfl
  | cons z rest ih =>
    show zfold rest (_populate_zone z s) = s
    rw [populateZone_noop z (h z (List.mem_cons_self z rest))]
    exact ih (fun w hw => h w (List.mem_cons_of_mem z hw))

theorem deviceEnsure_preserves (d : DeviceRec) (s : HubState) :
    (deviceEnsure d s).2.zstore = s.zstore ∧
    (deviceEnsure d s).2.zone_by_id = s.zone_by_id ∧
    (deviceEnsure d s).2.zone_by_name = s.zone_by_name ∧
    (deviceEnsure d s).2.zone_objs = s.zone_objs := by
  unfold deviceEnsure
  cases h : dlookup s.device_by_id d.id <;> exact ⟨rfl, rfl, rfl, rfl⟩

theorem deviceEnsure_self (d : DeviceRec) (s : HubState) :
    dlookup (deviceEnsure d s).2.device_by_id d.id = some (deviceEnsure d s).1 := by
  unfold deviceEnsure
  cases h : dlookup s.device_by_id d.id with
  | some o => exact h
  | none => exact dlookup_dinsert_none_self s.nextOid h

theorem deviceEnsure_isSome (d : DeviceRec) {s : HubState} {k : String}
    (h : (dlookup s.device_by_id k).isSome) :
    (dlookup (deviceEnsure d s).2.device_by_id k).isSome := by
  unfold deviceEnsure
  cases hd : dlookup s.device_by_id d.id with
  | some o => exact h
  | none => exact dlookup_dinsert_none_isSome s.nextOid hd h

theorem find?_oid_map (f : ZoneObj → ZoneObj) (hf : ∀ w, (f w).oid = w.oid)
    (l : List ZoneObj) (oid : Nat) :
    (l.map f).find? (fun z => z.oid == oid)
      = (l.find? (fun z => z.oid == oid)).map f := by
  induction l with
  | nil => rfl
  | cons w rest ih =>
    simp only [List.map_cons, List.find?]
    by_cases h : (w.oid == oid) = true
    · simp [hf, h]
    · simp [hf, h, ih]

theorem deviceLink_tables {zo : Option Nat} {idx : String} {dv : Nat}
    {s s' : HubState} (h : deviceLink zo idx dv s = Except.ok s') :
    s'.zone_by_id = s.zone_by_id ∧ s'.zone_by_name = s.zone_by_name ∧
    s'.zone_objs = s.zone_objs ∧ s'.device_by_id = s.device_by_id ∧
    s'.device_objs = s.device_objs ∧ s'.dstore = s.dstore ∧
    s'.nextOid = s.nextOid := by
  unfold deviceLink at h
  split at h
  · cases h; exact ⟨rfl, rfl, rfl, rfl, rfl, rfl, rfl⟩
  · split at h
    · cases h
    · split at h
      · cases h; exact ⟨rfl, rfl, rfl, rfl, rfl, rfl, rfl⟩
      · cases h; exact ⟨rfl, rfl, rfl, rfl, rfl, rfl, rfl⟩

theorem zfind_linkUpdate (s : HubState) (zoid : Nat) (idx : String) (dv : Nat)
    (zoid' : Nat) :
    zfind { s with zstore := s.zstore.map (fun w =>
        if w.oid == zoid then linkZoneObj w idx dv else w) } zoid'
    = (zfind s zoid').map (fun w =>
        if w.oid == zoid then linkZoneObj w idx dv else w) := by
  unfold zfind
  exact find?_oid_map _
    (fun w => by by_cases hw : (w.oid == zoid) = true <;> simp [hw, linkZoneObj]) _ _

theorem zfind_oid {s : HubState} {zoid : Nat} {z : ZoneObj}
    (h : zfind s zoid = some z) : (z.oid == zoid) = true := by
  unfold zfind at h
  have h2 := List.find?_some h
  exact h2

theorem deviceLink_zfind_mono {zo : Option Nat} {idx : String} {dv : Nat}
    {s s' : HubState} (h : deviceLink zo idx dv s = Except.ok s')
    {zoid' : Nat} {z' : ZoneObj} {k : String} (hz : zfind s zoid' = some z')
    (hk : (dlookup z'.device_by_id k).isSome) :
    ∃ z'', zfind s' zoid' = some z'' ∧ (dlookup z''.device_by_id k).isSome := by
  unfold deviceLink at h
  split at h
  · cases h; exact ⟨z', hz, hk⟩
  · rename_i zoid
    split at h
    · cases h
    · rename_i z hzf
      split at h
      · cases h; exact ⟨z', hz, hk⟩
      · rename_i hnone
        cases h
        have hfind := zfind_linkUpdate s zoid idx dv zoid'
        rw [hz] at hfind
        by_cases hw : (z'.oid == zoid) = true
        · have hzz : zoid' = zoid := by
            have h1 := zfind_oid hz
            simp only [beq_iff_eq] at h1 hw
            rw [← h1, hw]
          subst hzz
          have hz'z : z' = z := by
            rw [hz] at hzf
            exact Option.some_inj.mp hzf
          subst hz'z
          refine ⟨linkZoneObj z' idx dv, ?_, ?_⟩
          · rw [hfind]
            exact congrArg some (if_pos hw)
          · exact dlookup_dinsert_none_isSome dv hnone hk
        · refine ⟨z', ?_, hk⟩
          rw [hfind]
          exact congrArg some (if_neg hw)

theorem deviceLink_self {zoid : Nat} {idx : String} {dv : Nat} {s s' : HubState}
    (h : deviceLink (some zoid) idx dv s = Except.ok s') :
    ∃ z'', zfind s' zoid = some z'' ∧ (dlookup z''.device_by_id idx).isSome := by
  simp only [deviceLink] at h
  split at h
  · cases h
  · rename_i z hzf
    split at h
    · rename_i o hsome
      cases h
      exact ⟨z, hzf, by rw [hsome]; rfl⟩
    · rename_i hnone
      cases h
      have hbeq : (z.oid == zoid) = true := zfind_oid hzf
      have hfind := zfind_linkUpdate s zoid idx dv zoid
      rw [hzf] at hfind
      refine ⟨linkZoneObj z idx dv, ?_, ?_⟩
      · rw [hfind]
        exact congrArg some (if_pos hbeq)
      · exact Option.isSome_iff_exists.mpr
          ⟨dv, by simp only [linkZoneObj]; exact dlookup_dinsert_none_self dv hnone⟩

theorem devDone_link_ensure_mono {d' : DeviceRec} {zo : Option Nat}
    {s s' : HubState} {d : DeviceRec}
    (h : deviceLink zo d'.id (deviceEnsure d' s).1 (deviceEnsure d' s).2
           = Except.ok s')
    (hd : DevDone d s) : DevDone d s' := by
  obtain ⟨hdev, hzone⟩ := hd
  obtain ⟨hE1, hE2, hE3, hE4⟩ := deviceEnsure_preserves d' s
  obtain ⟨t1, t2, t3, tD, _, _, _⟩ := deviceLink_tables h
  constructor
  · rw [tD]
    exact deviceEnsure_isSome d' hdev
  · intro n hn
    obtain ⟨zoid, z, hname, hzf, htab⟩ := hzone n hn
    have hzf2 : zfind (deviceEnsure d' s).2 zoid = some z := by
      unfold zfind
      rw [hE1]
      exact hzf
    obtain ⟨z'', hz'', hk''⟩ := deviceLink_zfind_mono h hzf2 htab
    refine ⟨zoid, z'', ?_, hz'', hk''⟩
    rw [t2, hE3]
    exact hname

theorem populateDevice_zone_tables {d : DeviceRec} {s s' : HubState}
    (h : _populate_device d s = Except.ok s') :
    s'.zone_by_id = s.zone_by_id ∧ s'.zone_by_name = s.zone_by_name ∧
    s'.zone_objs = s.zone_objs := by
  unfold _populate_device at h
  obtain ⟨hE1, hE2, hE3, hE4⟩ := deviceEnsure_preserves d s
  split at h
  · obtain ⟨t1, t2, t3, _, _, _, _⟩ := deviceLink_tables h
    exact ⟨t1.trans hE2, t2.trans hE3, t3.trans hE4⟩
  · split at h
    · obtain ⟨t1, t2, t3, _, _, _, _⟩ := deviceLink_tables h
      exact ⟨t1.trans hE2, t2.trans hE3, t3.trans hE4⟩
    · cases h

theorem populateDevice_post {d : DeviceRec} {s s' : HubState}
    (h : _populate_device d s = Except.ok s') : DevDone d s' := by
  unfold _populate_device at h
  split at h
  · rename_i htn
    obtain ⟨_, _, _, tD, _, _, _⟩ := deviceLink_tables h
    constructor
    · rw [tD, deviceEnsure_self]
      rfl
    · intro n hn
      rw [htn] at hn
      cases hn
  · rename_i n htn
    split at h
    · rename_i zoid hname
      obtain ⟨_, tN, _, tD, _, _, _⟩ := deviceLink_tables h
      constructor
      · rw [tD, deviceEnsure_self]
        rfl
      · intro n' hn'
        have hnn : n' = n := by
          rw [htn] at hn'
          exact (Option.some_inj.mp hn').symm
        subst hnn
        obtain ⟨z'', hz'', hk''⟩ := deviceLink_self h
        refine ⟨zoid, z'', ?_, hz'', hk''⟩
        rw [tN, (deviceEnsure_preserves d s).2.2.1]
        exact hname
    · cases h

theorem populateDevice_mono {d' d : DeviceRec} {s s' : HubState}
    (h : _populate_device d' s = Except.ok s') (hd : DevDone d s) :
    DevDone d s' := by
  unfold _populate_device at h
  split at h
  · exact devDone_link_ensure_mono h hd
  · split at h
    · exact devDone_link_ensure_mono h hd
    · cases h

theorem populateDevice_noop {d : DeviceRec} {s : HubState} (hd : DevDone d s) :
    _populate_device d s = Except.ok s := by
  obtain ⟨hdev, hzone⟩ := hd
  obtain ⟨o, ho⟩ := Option.isSome_iff_exists.mp hdev
  have hens : deviceEnsure d s = (o, s) := by
    unfold deviceEnsure
    rw [ho]
  unfold _populate_device
  cases htn : truthyName d with
  | none =>
    rw [hens]
    simp [deviceLink]
  | some n =>
    obtain ⟨zoid, z, hname, hzf, htab⟩ := hzone n htn
    obtain ⟨t, ht⟩ := Option.isSome_iff_exists.mp htab
    simp only [hname, hens, deviceLink, hzf, ht]

theorem dfold_tables {ds : List DeviceRec} {s s' : HubState}
    (h : dfold ds s = Except.ok s') :
    s'.zone_by_id = s.zone_by_id ∧ s'.zone_by_name = s.zone_by_name ∧
    s'.zone_objs = s.zone_objs := by
  induction ds generalizing s with
  | nil => cases h; exact ⟨rfl, rfl, rfl⟩
  | cons d rest ih =>
    unfold dfold at h
    split at h
    · rename_i s1 hpd
      obtain ⟨a1, a2, a3⟩ := ih h
      obtain ⟨b1, b2, b3⟩ := populateDevice_zone_tables hpd
      exact ⟨a1.trans b1, a2.trans b2, a3.trans b3⟩
    · cases h

theorem dfold_mono_DevDone {ds : List DeviceRec} {s s' : HubState}
    {d : DeviceRec} (hd : DevDone d s) (h : dfold ds s = Except.ok s') :
    DevDone d s' := by
  induction ds generalizing s with
  | nil => cases h; exact hd
  | cons d0 rest ih =>
    unfold dfold at h
    split at h
    · rename_i s1 hpd
      exact ih (populateDevice_mono hpd hd) h
    · cases h

theorem dfold_post {ds : List DeviceRec} {s s' : HubState}
    (h : dfold ds s = Except.ok s') : ∀ d ∈ ds, DevDone d s' := by
  induction ds generalizing s with
  | nil => intro d hd; cases hd
  | cons d0 rest ih =>
    unfold dfold at h
    split at h
    · rename_i s1 hpd
      intro d hd
      cases hd with
      | head => exact dfold_mono_DevDone (populateDevice_post hpd) h
      | tail _ hm => exact ih h d hm
    · cases h

theorem dfold_noop {ds : List DeviceRec} {s : HubState}
    (h : ∀ d ∈ ds, DevDone d s) : dfold ds s = Except.ok s := by
  induction ds with
  | nil => rfl
  | cons d rest ih =>
    unfold dfold
    rw [populateDevice_noop (h d (List.mem_cons_self d rest))]
    exact ih (fun w hw => h w (List.mem_cons_of_mem d hw))

/-- C1: for every well-formed v3 zone record whose type and mode codes are
in the enum tables, `_convert_zone` includes `temperature` and `setpoint`
exactly when the type is ControlSP or TPI; for OnOffTimer the `setpoint`
value is the boolean `fSP` unequal zero; the `override` block (duration
`iBoostTimeRemaining`, setpoint boolean-coerced from `fBoostSP` for
OnOffTimer, numeric otherwise) and an empty `schedule` placeholder appear
exactly when the type is OnOffTimer, ControlSP or TPI; and on the concrete
Scenario 1 input the output is exactly the listed v1 zone. -/
theorem C1_zone_translation (z : ZoneV3) (ty mo : String)
    (hT : ITYPE_TO_TYPE z.iType = some ty)
    (hM : IMODE_TO_MODE z.iMode = some mo) :
    ZoneFieldSpec z ∧ _convert_zone scenario1Zone = Except.ok scenario1V1 := by
  refine ⟨?_, rfl⟩
  unfold ZoneFieldSpec _convert_zone
  rw [hT, hM]
  refine ⟨_, rfl, ?_, ?_, ?_, ?_⟩ <;>
  · by_cases h2 : z.iType = zone_types.OnOffTimer <;>
    by_cases h3 : z.iType = zone_types.ControlSP <;>
    by_cases h4 : z.iType = zone_types.TPI <;>
    by_cases hp : Nat.land z.iFlagExpectedKit kit_types.PIR = 0 <;>
    simp_all [dlookup, zone_types.OnOffTimer, zone_types.ControlSP,
      zone_types.TPI]

/-- C1 witness: the hypotheses and conclusion of `C1_zone_translation` hold
at the Scenario 1 record. -/
theorem C1_zone_translation_witness :
    ITYPE_TO_TYPE scenario1Zone.iType = some "ControlSP" ∧
    IMODE_TO_MODE scenario1Zone.iMode = some "off" ∧
    (ZoneFieldSpec scenario1Zone ∧
      _convert_zone scenario1Zone = Except.ok scenario1V1) :=
  ⟨rfl, rfl, C1_zone_translation scenario1Zone "ControlSP" "off" rfl rfl⟩

/-- C2: for every well-formed v3 zone record whose type and mode codes are
in the enum tables, `_convert_zone` emits an `occupied` key exactly when
`iFlagExpectedKit` has the PIR bit set, with value
`(iMode == Footprint) and objFootprint.objReactive.bTriggerOn and not
objFootprint.bIsNight`; when the PIR bit is unset there is no `occupied`
key. -/
theorem C2_occupied_field (z : ZoneV3) (ty mo : String)
    (hT : ITYPE_TO_TYPE z.iType = some ty)
    (hM : IMODE_TO_MODE z.iMode = some mo) :
    OccupiedSpec z := by
  unfold OccupiedSpec _convert_zone
  rw [hT, hM]
  refine ⟨_, rfl, ?_, ?_, ?_⟩
  · intro hp
    by_cases h2 : z.iType = zone_types.OnOffTimer <;>
    by_cases h3 : z.iType = zone_types.ControlSP <;>
    by_cases h4 : z.iType = zone_types.TPI <;>
    simp_all [dlookup, zone_types.OnOffTimer, zone_types.ControlSP,
      zone_types.TPI]
  · intro hp
    by_cases h2 : z.iType = zone_types.OnOffTimer <;>
    by_cases h3 : z.iType = zone_types.ControlSP <;>
    by_cases h4 : z.iType = zone_types.TPI <;>
    simp_all [dlookup, zone_types.OnOffTimer, zone_types.ControlSP,
      zone_types.TPI]
  · simp [Bool.and_eq_true, beq_iff_eq, Bool.not_eq_true', and_assoc]

/-- C2 witness: the hypotheses and conclusion of `C2_occupied_field` hold at
the Scenario 2 record, whose translation carries `occupied: true`. -/
theorem C2_occupied_field_witness :
    ITYPE_TO_TYPE scenario2Zone.iType = some "ControlSP" ∧
    IMODE_TO_MODE scenario2Zone.iMode = some "footprint" ∧
    _convert_zone scenario2Zone = Except.ok scenario2V1 ∧
    OccupiedSpec scenario2Zone :=
  ⟨rfl, rfl, rfl, C2_occupied_field scenario2Zone "ControlSP" "footprint" rfl rfl⟩

/-- C9: for every v3 zone record whose numeric type code or mode code is not
a key of the corresponding enum-to-text table, `_convert_zone` fails with an
explicit error (the `KeyError` of the Python dict indexing) instead of
producing an output with a substituted default. -/
theorem C9_unknown_enum_fails (z : ZoneV3)
    (h : ITYPE_TO_TYPE z.iType = none ∨ IMODE_TO_MODE z.iMode = none) :
    ∃ e, _convert_zone z = Except.error e := by
  unfold _convert_zone
  rcases h with h | h
  · rw [h]
    exact ⟨ConvError.keyErrorType z.iType, rfl⟩
  · cases ht : ITYPE_TO_TYPE z.iType with
    | none => exact ⟨ConvError.keyErrorType z.iType, rfl⟩
    | some ty => rw [h]; exact ⟨ConvError.keyErrorMode z.iMode, rfl⟩

/-- C9 witness: the record `zone99` has the unknown type code 99 and its
translation fails. -/
theorem C9_unknown_enum_fails_witness :
    (ITYPE_TO_TYPE zone99.iType = none ∨ IMODE_TO_MODE zone99.iMode = none) ∧
    ∃ e, _convert_zone zone99 = Except.error e :=
  ⟨Or.inl rfl, C9_unknown_enum_fails zone99 (Or.inl rfl)⟩

/-- C5: the reconciliation pass of `Hub.update` is idempotent on the object
graph: a second `hub_update` with identical zone and device lists returns
the state unchanged — no new Zone or Device objects are created and all
id/name tables and object lists are exactly those of the first call. -/
theorem C5_update_idempotent (zs : List ZoneRec) (ds : List DeviceRec)
    (s0 s1 : HubState) (h : hub_update zs ds s0 = Except.ok s1) :
    hub_update zs ds s1 = Except.ok s1 := by
  unfold hub_update at h ⊢
  have hids : ∀ z ∈ zs, zoneKnown s1 z.id := by
    intro z hz
    have h1 := zfold_known_of_mem s0 hz
    obtain ⟨t1, _, _⟩ := dfold_tables h
    unfold zoneKnown at h1 ⊢
    rw [t1]
    exact h1
  rw [zfold_noop hids]
  exact dfold_noop (dfold_post h)

/-- C5 witness: a concrete first update from the fresh hub state reaches
`c5State`, and the second identical update leaves it unchanged. -/
theorem C5_update_idempotent_witness :
    hub_update c5Zones c5Devices initHubState = Except.ok c5State ∧
    hub_update c5Zones c5Devices c5State = Except.ok c5State :=
  ⟨rfl, C5_update_idempotent c5Zones c5Devices initHubState c5State rfl⟩

/-- C6 counterexample: after populating zone id 1 named "Old", a second
update carrying the same id with the changed name "New" leaves the state —
in particular the `zone_by_name` index — entirely unchanged: the new name is
not indexed at all, refuting the claim that the second call updates the
name index to map the new name to the existing Zone object. -/
theorem C6_counterexample :
    hub_update [{ id := 1, name := "Old" }] [] initHubState
      = Except.ok c6State ∧
    hub_update [{ id := 1, name := "New" }] [] c6State = Except.ok c6State ∧
    dlookup c6State.zone_by_name "New" = none ∧
    dlookup c6State.zone_by_name "Old" = some 0 :=
  ⟨rfl, rfl, rfl, rfl⟩

/-- C6 amended: when `Hub.update` observes a zone id it already knows, the
found branch of `_populate_zone` does nothing at all: no second Zone object
is created and the by-name index is left unchanged (still mapping the old
name; the new name is not indexed). -/
theorem C6_rename_reuses_zone (i : Int) (n1 n2 : String) (s0 s1 : HubState)
    (h : hub_update [{ id := i, name := n1 }] [] s0 = Except.ok s1) :
    hub_update [{ id := i, name := n2 }] [] s1 = Except.ok s1 := by
  have h1 : _populate_zone { id := i, name := n1 } s0 = s1 := by
    simpa [hub_update, zfold, dfold] using h
  have hk : zoneKnown s1 i := by
    rw [← h1]
    exact populateZone_known_self { id := i, name := n1 } s0
  show dfold [] (zfold [{ id := i, name := n2 }] s1) = Except.ok s1
  simp [zfold, dfold, populateZone_noop { id := i, name := n2 } hk]

/-- C6 witness: the concrete two-call run of `C6_counterexample` instantiates
the amended theorem. -/
theorem C6_rename_reuses_zone_witness :
    hub_update [{ id := 1, name := "Old" }] [] initHubState
      = Except.ok c6State ∧
    hub_update [{ id := 1, name := "New" }] [] c6State = Except.ok c6State :=
  ⟨rfl, C6_rename_reuses_zone 1 "Old" "New" initHubState c6State rfl⟩

/-- C7 counterexample: reconciling a device whose assigned-zone name "B" is
not in the hub's name index raises the `KeyError` of
`hub.zone_by_name[name]` — the update fails rather than leaving the device
hub-owned. -/
theorem C7_counterexample :
    hub_update [{ id := 1, name := "A" }]
      [{ id := "d1", assignedZoneName := some "B" }] initHubState
      = Except.error (UpdateError.keyError "B") := rfl

/-- C7 amended: a device record whose truthy assigned-zone name is absent
from the hub's name index makes `_populate_device` fail with that
`KeyError` (registering nothing); only a falsy (null or empty) name leaves
the device registered in the hub's device table — its id is indexed in
`device_by_id` — without touching any zone: the zone heap (which holds
every zone's own device table) and the zone indexes are unchanged. -/
theorem C7_unresolved_name (s : HubState) (d : DeviceRec) :
    (∀ n, truthyName d = some n → dlookup s.zone_by_name n = none →
      _populate_device d s = Except.error (UpdateError.keyError n)) ∧
    (truthyName d = none →
      ∃ s', _populate_device d s = Except.ok s' ∧
        (dlookup s'.device_by_id d.id).isSome ∧
        s'.zstore = s.zstore ∧
        s'.zone_by_id = s.zone_by_id ∧ s'.zone_by_name = s.zone_by_name) := by
  constructor
  · intro n hn hnone
    unfold _populate_device
    rw [hn]
    simp [hnone]
  · intro hn
    unfold _populate_device
    rw [hn]
    refine ⟨(deviceEnsure d s).2, ?_, ?_, ?_, ?_, ?_⟩
    · simp [deviceLink]
    · rw [deviceEnsure_self]
      rfl
    · exact (deviceEnsure_preserves d s).1
    · exact (deviceEnsure_preserves d s).2.1
    · exact (deviceEnsure_preserves d s).2.2.1

/-- C7 witness: on the fresh hub state, a device assigned to the unindexed
zone name "B" fails with the corresponding `KeyError`, while a device with
a null assigned-zone name is registered in the hub's device table only. -/
theorem C7_unresolved_name_witness :
    truthyName { id := "d1", assignedZoneName := some "B" } = some "B" ∧
    dlookup initHubState.zone_by_name "B" = none ∧
    _populate_device { id := "d1", assignedZoneName := some "B" } initHubState
      = Except.error (UpdateError.keyError "B") ∧
    truthyName { id := "d2", assignedZoneName := none } = none ∧
    (∃ s', _populate_device { id := "d2", assignedZoneName := none }
        initHubState = Except.ok s' ∧
      (dlookup s'.device_by_id "d2").isSome ∧
      s'.zstore = initHubState.zstore ∧
      s'.zone_by_id = initHubState.zone_by_id ∧
      s'.zone_by_name = initHubState.zone_by_name) :=
  ⟨rfl, rfl,
   (C7_unresolved_name initHubState
     { id := "d1", assignedZoneName := some "B" }).1 "B" rfl rfl,
   rfl,
   (C7_unresolved_name initHubState
     { id := "d2", assignedZoneName := none }).2 rfl⟩

/-- C3 counterexample: the data-manager extraction filters on the container
key, not on the device address, so a device whose address is "WeatherData"
inside a container keyed otherwise survives into the output — refuting the
claim that neither "1" nor "WeatherData" ever appears in the output of
either strategy. -/
theorem C3_counterexample :
    ∃ d, d ∈ _extract_devices_from_data_manager dmBad ∧
      dlookup d "id" = some (V1Val.str "WeatherData") :=
  ⟨dmOutWD, List.mem_singleton.mpr rfl, rfl⟩

/-- C3 amended: the zones-payload extraction never yields a node with
address "1" or "WeatherData"; the data-manager extraction never yields a
device dict whose id is "1" (it excludes the container keyed "WeatherData"
rather than device addresses, so a "WeatherData" address under another
container key is not excluded). -/
theorem C3_device_extraction (zs : List ZoneNodes) (dm : DataManager)
    (n : DeviceV3) (d : List (String × V1Val)) :
    (n ∈ _extract_devices_from_zones zs →
      n.addr ≠ "1" ∧ n.addr ≠ "WeatherData") ∧
    (d ∈ _extract_devices_from_data_manager dm →
      dlookup d "id" ≠ some (V1Val.str "1")) := by
  constructor
  · intro hm
    unfold _extract_devices_from_zones at hm
    rw [List.mem_filter] at hm
    have hp := hm.2
    simp only [Bool.and_eq_true, Bool.not_eq_true', beq_eq_false_iff_ne] at hp
    exact hp
  · intro hm
    unfold _extract_devices_from_data_manager at hm
    rw [List.mem_flatMap] at hm
    obtain ⟨p, hp, hd⟩ := hm
    rw [List.mem_map] at hd
    obtain ⟨q, hq, rfl⟩ := hd
    rw [List.mem_filter] at hq
    have hne : q.2.addr ≠ "1" := by
      have hq2 := hq.2
      simp only [Bool.not_eq_true', beq_eq_false_iff_ne] at hq2
      exact hq2
    intro hcontra
    apply hne
    have hid : dlookup (_convert_device q.2) "id"
        = some (V1Val.str q.2.addr) := by
      simp [_convert_device, dlookup]
    rw [hid] at hcontra
    exact V1Val.str.inj (Option.some_inj.mp hcontra)

/-- C3 witness: on the Scenario 3 zones payload only the node with address
"5" survives, and on a data-manager tree holding that node the extracted
dict's id is not "1". -/
theorem C3_device_extraction_witness :
    node5 ∈ _extract_devices_from_zones scenario3Zones ∧
    node5.addr ≠ "1" ∧ node5.addr ≠ "WeatherData" ∧
    dmOut5 ∈ _extract_devices_from_data_manager dmGood ∧
    dlookup dmOut5 "id" ≠ some (V1Val.str "1") := by
  have hm1 : node5 ∈ _extract_devices_from_zones scenario3Zones := by decide
  have hm2 : dmOut5 ∈ _extract_devices_from_data_manager dmGood :=
    List.mem_singleton.mpr rfl
  have h := C3_device_extraction scenario3Zones dmGood node5 dmOut5
  exact ⟨hm1, (h.1 hm1).1, (h.1 hm1).2, hm2, h.2 hm2⟩

/-- C4 counterexample: `set_mode("bogus")` does not fail and issues exactly
one request carrying the invalid mode verbatim, under both protocols —
refuting the claim that an unrecognized mode fails with `InvalidMode` and
issues no request (no validation exists in the source). -/
theorem C4_counterexample :
    set_mode true "1" "bogus"
      = [{ method := "PUT", url := "zones/1/mode",
           body := some (V1Val.str "bogus") }] ∧
    set_mode false "1" "bogus"
      = [{ method := "PATCH", url := "zone/1",
           body := some (V1Val.obj [("iMode", V1Val.str "bogus")]) }] :=
  ⟨rfl, rfl⟩

/-- C4 amended: `Zone.set_mode` performs no validation of the mode argument:
for every mode string, valid or not, it succeeds and issues exactly one
request carrying the mode verbatim — under v1 a PUT to `zones/(id)/mode`
with the mode string as body, otherwise a PATCH to `zone/(id)` with body
`iMode = mode` — and never raises an `InvalidMode` error, which does not
exist in the source. -/
theorem C4_set_mode_no_validation (api_v1 : Bool) (zone_id mode : String) :
    ∃ r : Request, set_mode api_v1 zone_id mode = [r] ∧
      (api_v1 = true →
        r = { method := "PUT", url := "zones/" ++ zone_id ++ "/mode",
              body := some (V1Val.str mode) }) ∧
      (api_v1 = false →
        r = { method := "PATCH", url := "zone/" ++ zone_id,
              body := some (V1Val.obj [("iMode", V1Val.str mode)]) }) := by
  cases api_v1 with
  | true =>
    refine ⟨_, rfl, fun _ => rfl, fun h => ?_⟩
    exact nomatch h
  | false =>
    refine ⟨_, rfl, fun h => ?_, fun _ => rfl⟩
    exact nomatch h

/-- C4 witness: the single request and its verbatim body at the invalid mode
"bogus", under both protocols, obtained from `C4_set_mode_no_validation`. -/
theorem C4_set_mode_no_validation_witness :
    set_mode true "1" "bogus"
      = [{ method := "PUT", url := "zones/" ++ "1" ++ "/mode",
           body := some (V1Val.str "bogus") }] ∧
    set_mode false "1" "bogus"
      = [{ method := "PATCH", url := "zone/" ++ "1",
           body := some (V1Val.obj [("iMode", V1Val.str "bogus")]) }] := by
  obtain ⟨r1, h1, ht1, _⟩ := C4_set_mode_no_validation true "1" "bogus"
  obtain ⟨r2, h2, _, hf2⟩ := C4_set_mode_no_validation false "1" "bogus"
  rw [h1, ht1 rfl, h2, hf2 rfl]
  exact ⟨rfl, rfl⟩

/-- C8: evaluating `set_mode` at the valid mode "off" shows the v1 protocol
issues the claimed `PUT zones/1/mode` with the mode as body, but the v3
protocol issues `PATCH zone/1` whose body carries the mode string "off"
verbatim instead of the numeric code 1 documented in the function's own
comments — the mode is never mapped to its numeric enum code. -/
theorem C8_set_mode_payloads :
    set_mode false "1" "off"
      = [{ method := "PATCH", url := "zone/1",
           body := some (V1Val.obj [("iMode", V1Val.str "off")]) }] ∧
    set_mode true "1" "off"
      = [{ method := "PUT", url := "zones/1/mode",
           body := some (V1Val.str "off") }] :=
  ⟨rfl, rfl⟩

/-- C10 counterexample: with username `None` and a non-empty password the
constructor selects the v3 branch but then fails with the `TypeError` of
`None + str` instead of configuring v3 basic auth — refuting the claim that
every not-both-absent credential pair yields a v3 configuration. -/
theorem C10_counterexample :
    truthyStr (some "pw") = true ∧
    clientInit (fun s => s) "hub1" none (some "pw")
      = Except.error InitError.typeError :=
  ⟨rfl, rfl⟩

/-- C10 amended: the constructor selects v1 exactly when both credentials
are falsy (None or empty), configuring bearer-token headers from `hub_id`
and the cloud base url; when both credentials are present strings and at
least one is non-empty it configures v3 with basic auth whose password is
the external SHA-256 hex digest applied to username concatenated with
password, the local base url on port 1223 and a Connection: close header;
when exactly one credential is None (and the other truthy) it fails with
`TypeError` instead of configuring v3. -/
theorem C10_protocol_selection (sha256hex : String → String) (hub_id : String)
    (username password : Option String) :
    (truthyStr username = false ∧ truthyStr password = false →
      clientInit sha256hex hub_id username password = Except.ok
        { api_v1 := true, auth := none,
          url_base := "https://my.geniushub.co.uk/v1/",
          headers := [("authorization", "Bearer " ++ hub_id)] }) ∧
    (∀ us ps, username = some us → password = some ps →
      (truthyStr username || truthyStr password) = true →
      clientInit sha256hex hub_id username password = Except.ok
        { api_v1 := false, auth := some (us, sha256hex (us ++ ps)),
          url_base := "http://" ++ hub_id ++ ":1223/v3/",
          headers := [("Connection", "close")] }) ∧
    ((truthyStr username || truthyStr password) = true →
      (username = none ∨ password = none) →
      clientInit sha256hex hub_id username password
        = Except.error InitError.typeError) := by
  refine ⟨?_, ?_, ?_⟩
  · rintro ⟨h1, h2⟩
    unfold clientInit
    rw [h1, h2]
    rfl
  · intro us ps hu hp htruthy
    subst hu
    subst hp
    unfold clientInit
    rw [htruthy]
    rfl
  · intro htruthy hnone
    unfold clientInit
    rw [htruthy]
    rcases hnone with h | h
    · subst h
      rfl
    · subst h
      cases username with
      | none => rfl
      | some us => rfl

/-- C10 witness: concrete instantiations of the amended constructor
contract: no credentials select v1 with a bearer token, and a full
credential pair selects v3 with the hashed concatenation. -/
theorem C10_protocol_selection_witness :
    clientInit (fun s => s) "hub1" none none = Except.ok
      { api_v1 := true, auth := none,
        url_base := "https://my.geniushub.co.uk/v1/",
        headers := [("authorization", "Bearer " ++ "hub1")] } ∧
    (truthyStr (some "u") || truthyStr (some "p")) = true ∧
    clientInit (fun s => s) "hub1" (some "u") (some "p") = Except.ok
      { api_v1 := false, auth := some ("u", "u" ++ "p"),
        url_base := "http://" ++ "hub1" ++ ":1223/v3/",
        headers := [("Connection", "close")] } :=
  ⟨(C10_protocol_selection (fun s => s) "hub1" none none).1 ⟨rfl, rfl⟩,
   rfl,
   (C10_protocol_selection (fun s => s) "hub1" (some "u") (some "p")).2.1
     "u" "p" rfl rfl rfl⟩


